import Mathlib

/-
Verification of the deployment lifecycle of the ecommerce-aws-cicd
repository.

The repository deploys a containerized web application through CodeDeploy
lifecycle hooks.  The hook scripts are shell scripts; we embed each script
as a pure function from the outcomes the external world (AWS and the Docker
daemon) would give to its individual commands, to the list of commands the
script issues, its exit status, and the container slot it leaves behind.

Embedded scripts:
  * application_stop        — deployment/application_stop.sh (first document)
  * application_start_variant — deployment/application_stop.sh (second
                              document, the set -e variant with the ECR
                              repository check and a duplicated pull/run)
  * validate_service        — deployment/validate_service.sh (first document)
  * before_install          — deployment/validate_service.sh (second document)
  * application_start       — src/unnamed/part_001 (the hook without set -e)

The lifecycle coordinator that sequences the hooks and performs rollback is
CodeDeploy configuration, not a file of the repository; it is modelled from
the spec where a claim needs it.
-/

set_option autoImplicit false
set_option maxRecDepth 8000

namespace ECommerceDeploy

/-- Commands a deployment hook script can issue, in execution order. -/
inductive Ev where
  | stsCmd
  | ecrCheck
  | loginCmd
  | pullCmd
  | runCmd
  | sleepCmd
  | psCheck
  | logsCmd
  | installTooling
  | inspectCmd
  | httpCmd
  | contentCmd
  | logScan
  | perfCmd
  | finalCmd
  | stopCmd
  | rmCmd
  deriving DecidableEq, Repr, Fintype

/-- The container slot named ecommerce-app on the target host: whether a
container with that name exists, and whether it is currently running. -/
structure Ctr where
  present : Bool
  running : Bool
  deriving DecidableEq, Repr

/-- Outcomes the external world (AWS and the Docker daemon) would give to
the individual commands issued by the hook scripts. -/
structure World where
  /-- aws sts get-caller-identity succeeds -/
  stsOk : Bool
  /-- the ECR repository ecommerce-app exists -/
  repoExists : Bool
  /-- the image tag resolves inside the repository -/
  tagExists : Bool
  /-- docker login to ECR succeeds -/
  loginOk : Bool
  /-- docker stop of a running container succeeds -/
  stopWorks : Bool
  /-- docker rm of a stopped container succeeds -/
  rmWorks : Bool
  /-- docker run can launch when the image is available and the name is free -/
  launchOk : Bool
  /-- a freshly launched container is still running after the sleep -/
  staysUp : Bool
  deriving DecidableEq, Repr

/-- docker stop NAME: stops a running container (which may fail), is a no-op
success on an already stopped container, and errors when no container with
that name exists. -/
def dstop (w : World) (c : Ctr) : Bool × Ctr :=
  if c.present && c.running then
    if w.stopWorks then (true, ⟨true, false⟩) else (false, c)
  else if c.present then (true, c)
  else (false, c)

/-- docker rm NAME without force: removes a stopped container (which may
fail), errors on a running container or when no container with that name
exists. -/
def drm (w : World) (c : Ctr) : Bool × Ctr :=
  if c.present && !c.running then
    if w.rmWorks then (true, ⟨false, false⟩) else (false, c)
  else (false, c)

/-- Whether docker pull of the configured ECR image succeeds: the registry
login must have worked and the repository and the tag must both exist. -/
def pullOk (w : World) : Bool :=
  w.loginOk && w.repoExists && w.tagExists

/-- docker run -d --name ecommerce-app: fails with a name conflict when a
container of that name already exists (running or not); otherwise launches
exactly when the image is available and the daemon can launch. -/
def drun (w : World) (c : Ctr) (imageAvailable : Bool) : Bool × Ctr :=
  if c.present then (false, c)
  else if imageAvailable && w.launchOk then (true, ⟨true, true⟩)
  else (false, c)

/-- Result of running one hook script: the commands it issued, its exit
status, and the container slot it leaves behind. -/
structure Run where
  trace : List Ev
  exitCode : Nat
  ctr : Ctr
  deriving DecidableEq, Repr

/-- deployment/application_stop.sh (first document): set -e, but both docker
commands carry fallback echoes, so every path reaches the final echo and the
script exits 0. -/
def application_stop (w : World) (c0 : Ctr) : Run :=
  let s := dstop w c0
  let r := drm w s.2
  ⟨[Ev.stopCmd, Ev.rmCmd], 0, r.2⟩

/-- before_install script (second document inside
deployment/validate_service.sh): no set -e; tool installation, then cleanup
of any existing container with fallbacks on both docker commands; the final
echo makes the exit status 0 on every path. -/
def before_install (w : World) (c0 : Ctr) : Run :=
  let s := dstop w c0
  let r := drm w s.2
  ⟨[Ev.installTooling, Ev.stopCmd, Ev.rmCmd], 0, r.2⟩

/-- application_start hook (src/unnamed/part_001): no set -e; hardcoded
region and account, cleanup of the existing container, ECR login, docker
pull, docker run, sleep, then a docker ps verification that alone decides
the exit status. -/
def application_start (w : World) (c0 : Ctr) : Run :=
  let s := dstop w c0
  let r := drm w s.2
  let ran := drun w r.2 (pullOk w)
  let cFinal : Ctr := if ran.1 then ⟨true, w.staysUp⟩ else ran.2
  if cFinal.present && cFinal.running then
    ⟨[Ev.stopCmd, Ev.rmCmd, Ev.loginCmd, Ev.pullCmd, Ev.runCmd, Ev.sleepCmd,
      Ev.psCheck], 0, cFinal⟩
  else
    ⟨[Ev.stopCmd, Ev.rmCmd, Ev.loginCmd, Ev.pullCmd, Ev.runCmd, Ev.sleepCmd,
      Ev.psCheck, Ev.logsCmd], 1, cFinal⟩

/-- application_start variant (second document inside
deployment/application_stop.sh): set -e throughout; metadata and identity
lookup, an explicit ECR repository existence check that exits 1, ECR login,
then a duplicated pull-and-run block, sleep and a docker ps verification. -/
def application_start_variant (w : World) (c0 : Ctr) : Run :=
  if !w.stsOk then ⟨[Ev.stsCmd], 1, c0⟩
  else if !w.repoExists then ⟨[Ev.stsCmd, Ev.ecrCheck], 1, c0⟩
  else if !w.loginOk then ⟨[Ev.stsCmd, Ev.ecrCheck, Ev.loginCmd], 1, c0⟩
  else if !w.tagExists then
    ⟨[Ev.stsCmd, Ev.ecrCheck, Ev.loginCmd, Ev.pullCmd], 1, c0⟩
  else
    let run1 := drun w c0 true
    if !run1.1 then
      ⟨[Ev.stsCmd, Ev.ecrCheck, Ev.loginCmd, Ev.pullCmd, Ev.runCmd], 1, run1.2⟩
    else
      let run2 := drun w run1.2 true
      if !run2.1 then
        ⟨[Ev.stsCmd, Ev.ecrCheck, Ev.loginCmd, Ev.pullCmd, Ev.runCmd,
          Ev.pullCmd, Ev.runCmd], 1, run2.2⟩
      else
        let cFinal : Ctr := ⟨true, w.staysUp⟩
        if cFinal.running then
          ⟨[Ev.stsCmd, Ev.ecrCheck, Ev.loginCmd, Ev.pullCmd, Ev.runCmd,
            Ev.pullCmd, Ev.runCmd, Ev.sleepCmd, Ev.psCheck], 0, cFinal⟩
        else
          ⟨[Ev.stsCmd, Ev.ecrCheck, Ev.loginCmd, Ev.pullCmd, Ev.runCmd,
            Ev.pullCmd, Ev.runCmd, Ev.sleepCmd, Ev.psCheck, Ev.logsCmd], 1,
            cFinal⟩

/-- Observations the validate_service probes would return. -/
structure HealthWorld where
  /-- docker ps lists ecommerce-app among the running containers -/
  psRunning : Bool
  /-- docker inspect State.Status of the container -/
  status : String
  /-- the http_code reported by curl, with 000 as the failure fallback -/
  httpCode : String
  /-- the response body served at the root path -/
  body : String
  /-- matches of error, fail or exception in the container logs -/
  errorCount : Nat
  /-- the timing curl invocation itself succeeds -/
  perfCurlOk : Bool
  /-- the time_total reported by the timing curl, printed only -/
  responseTime : String
  /-- the final curl -f of the root path succeeds -/
  finalCurlOk : Bool
  deriving DecidableEq, Repr

/-- The first content marker grepped for by validate_service. -/
def markerShop : String := "shop"

/-- The second content marker grepped for by validate_service. -/
def markerProduct : String := "product"

/-- The third content marker grepped for by validate_service. -/
def markerEcommerce : String := "ecommerce"

/-- The lowercased character list of a string. -/
def lowerChars (s : String) : List Char :=
  s.data.map Char.toLower

/-- Whether the character list pat is an initial segment of cs. -/
def startsWithChars : List Char → List Char → Bool
  | [], _ => true
  | _ :: _, [] => false
  | p :: ps, c :: cs => p == c && startsWithChars ps cs

/-- Whether the character list pat occurs contiguously inside cs. -/
def hasSubChars (pat : List Char) : List Char → Bool
  | [] => pat.isEmpty
  | c :: cs => startsWithChars pat (c :: cs) || hasSubChars pat cs

/-- Case-insensitive grep of the response body for ecommerce, shop or
product, as in the content check of validate_service. -/
def containsMarker (b : String) : Bool :=
  hasSubChars (lowerChars markerEcommerce) (lowerChars b)
    || hasSubChars (lowerChars markerShop) (lowerChars b)
    || hasSubChars (lowerChars markerProduct) (lowerChars b)

/-- The inspect status string that the health checks compare against. -/
def runningStatus : String := "running"

/-- The HTTP status code string that the health checks compare against. -/
def okCode : String := "200"

/-- deployment/validate_service.sh (first document): set -e; sleep, docker ps
listing, inspect status equal to running, HTTP code equal to 200, a content
grep of the body, a log scan that only warns, a timing curl whose output is
only printed, and a final curl -f.  Returns the issued commands and the exit
status. -/
def validate_service (h : HealthWorld) : List Ev × Nat :=
  if !h.psRunning then
    ([Ev.sleepCmd, Ev.psCheck, Ev.logsCmd], 1)
  else if !(h.status == runningStatus) then
    ([Ev.sleepCmd, Ev.psCheck, Ev.inspectCmd, Ev.logsCmd], 1)
  else if !(h.httpCode == okCode) then
    ([Ev.sleepCmd, Ev.psCheck, Ev.inspectCmd, Ev.httpCmd, Ev.logsCmd], 1)
  else if !containsMarker h.body then
    ([Ev.sleepCmd, Ev.psCheck, Ev.inspectCmd, Ev.httpCmd, Ev.contentCmd], 1)
  else if !h.perfCurlOk then
    ([Ev.sleepCmd, Ev.psCheck, Ev.inspectCmd, Ev.httpCmd, Ev.contentCmd,
      Ev.logScan, Ev.perfCmd], 1)
  else if h.finalCurlOk then
    ([Ev.sleepCmd, Ev.psCheck, Ev.inspectCmd, Ev.httpCmd, Ev.contentCmd,
      Ev.logScan, Ev.perfCmd, Ev.finalCmd], 0)
  else
    ([Ev.sleepCmd, Ev.psCheck, Ev.inspectCmd, Ev.httpCmd, Ev.contentCmd,
      Ev.logScan, Ev.perfCmd, Ev.finalCmd], 1)

/-- Phases of one deployment attempt, following spec section 4.1. -/
inductive Phase where
  | beforeInstall
  | stopping
  | installing
  | starting
  | validating
  deriving DecidableEq, Repr, Fintype

/-- Terminal outcomes of one deployment attempt. -/
inductive Terminal where
  | succeeded
  | failed
  | rolledBack
  deriving DecidableEq, Repr, Fintype

/-- Success or failure of each phase of one pass over the hook sequence,
after the phase's own internal handling. -/
structure PhaseOutcomes where
  beforeInstallOk : Bool
  stoppingOk : Bool
  installingOk : Bool
  startingOk : Bool
  validatingOk : Bool
  deriving DecidableEq, Repr

/-- Modelled from the spec: the rollback re-entry of section 4.1, which runs
Stopping, Installing, Starting and Validating once more using the previous
artifact reference; it returns the phases entered and whether the re-entry
validated successfully.  The coordinator itself is deployment-service
configuration, not a file of the repository. -/
def rollbackRun (r : PhaseOutcomes) : List Phase × Bool :=
  if !r.stoppingOk then ([Phase.stopping], false)
  else if !r.installingOk then ([Phase.stopping, Phase.installing], false)
  else if !r.startingOk then
    ([Phase.stopping, Phase.installing, Phase.starting], false)
  else if !r.validatingOk then
    ([Phase.stopping, Phase.installing, Phase.starting, Phase.validating],
      false)
  else
    ([Phase.stopping, Phase.installing, Phase.starting, Phase.validating],
      true)

/-- The fixed phase sequence of one pass. -/
def primarySeq : List Phase :=
  [Phase.beforeInstall, Phase.stopping, Phase.installing, Phase.starting,
    Phase.validating]

/-- The phase sequence of the rollback re-entry. -/
def rollbackSeq : List Phase :=
  [Phase.stopping, Phase.installing, Phase.starting, Phase.validating]

/-- Modelled from the spec: the Lifecycle Coordinator of section 4.1.  It
runs the fixed phase order BeforeInstall, Stopping, Installing, Starting,
Validating; a failure of BeforeInstall, Stopping or Installing is terminal
Failed; a failure of Starting or Validating triggers at most one rollback
re-entry when a previous artifact reference is known, whose success is
RolledBack and whose failure is Failed.  o gives the phase outcomes of the
primary pass, r those of the rollback pass. -/
def deploy (prevKnown : Bool) (o r : PhaseOutcomes) : List Phase × Terminal :=
  if !o.beforeInstallOk then ([Phase.beforeInstall], Terminal.failed)
  else if !o.stoppingOk then
    ([Phase.beforeInstall, Phase.stopping], Terminal.failed)
  else if !o.installingOk then
    ([Phase.beforeInstall, Phase.stopping, Phase.installing], Terminal.failed)
  else if !o.startingOk then
    if prevKnown then
      let rb := rollbackRun r
      (primarySeq.take 4 ++ rb.1,
        if rb.2 then Terminal.rolledBack else Terminal.failed)
    else (primarySeq.take 4, Terminal.failed)
  else if !o.validatingOk then
    if prevKnown then
      let rb := rollbackRun r
      (primarySeq ++ rb.1,
        if rb.2 then Terminal.rolledBack else Terminal.failed)
    else (primarySeq, Terminal.failed)
  else (primarySeq, Terminal.succeeded)

/-- Whether a recorded phase trace is the fixed sequence, possibly cut short
at a failing phase, possibly followed by at most one rollback repetition of
Stopping through Validating, itself possibly cut short. -/
def orderOk (tr : List Phase) : Bool :=
  tr.isPrefixOf primarySeq
    || (decide (tr.take 4 = primarySeq.take 4)
        && (tr.drop 4).isPrefixOf rollbackSeq)
    || (decide (tr.take 5 = primarySeq) && (tr.drop 5).isPrefixOf rollbackSeq)

/-- Whether a terminal outcome is RolledBack or Failed. -/
def rolledBackOrFailed (t : Terminal) : Bool :=
  t == Terminal.rolledBack || t == Terminal.failed

/-- The container slots form a finite type. -/
instance : Fintype Ctr :=
  Fintype.ofEquiv (Bool × Bool)
    { toFun := fun p => ⟨p.1, p.2⟩
      invFun := fun c => (c.present, c.running)
      left_inv := fun _ => rfl
      right_inv := fun _ => rfl }

/-- The worlds of command outcomes form a finite type. -/
instance : Fintype World :=
  Fintype.ofEquiv (Bool × Bool × Bool × Bool × Bool × Bool × Bool × Bool)
    { toFun := fun p =>
        ⟨p.1, p.2.1, p.2.2.1, p.2.2.2.1, p.2.2.2.2.1, p.2.2.2.2.2.1,
          p.2.2.2.2.2.2.1, p.2.2.2.2.2.2.2⟩
      invFun := fun w =>
        (w.stsOk, w.repoExists, w.tagExists, w.loginOk, w.stopWorks,
          w.rmWorks, w.launchOk, w.staysUp)
      left_inv := fun _ => rfl
      right_inv := fun _ => rfl }

/-- The phase outcome records form a finite type. -/
instance : Fintype PhaseOutcomes :=
  Fintype.ofEquiv (Bool × Bool × Bool × Bool × Bool)
    { toFun := fun p => ⟨p.1, p.2.1, p.2.2.1, p.2.2.2.1, p.2.2.2.2⟩
      invFun := fun o =>
        (o.beforeInstallOk, o.stoppingOk, o.installingOk, o.startingOk,
          o.validatingOk)
      left_inv := fun _ => rfl
      right_inv := fun _ => rfl }

/-- C2: when the primary pass reaches Starting and Starting fails while a
previous artifact reference is known, the coordinator performs exactly one
rollback re-entry (Stopping is entered exactly twice) and terminates
RolledBack or Failed; and no execution of the coordinator, whatever the
phase outcomes, ever enters Stopping or Starting more than twice, so a
second rollback re-entry is never attempted. -/
theorem C2_single_rollback_reentry :
    (∀ o r : PhaseOutcomes, o.beforeInstallOk = true → o.stoppingOk = true →
      o.installingOk = true → o.startingOk = false →
      (deploy true o r).1.count Phase.stopping = 2
        ∧ rolledBackOrFailed (deploy true o r).2 = true)
    ∧ ∀ (pk : Bool) (o r : PhaseOutcomes),
        (deploy pk o r).1.count Phase.stopping ≤ 2
          ∧ (deploy pk o r).1.count Phase.starting ≤ 2 :=
  ⟨by decide, by decide⟩

/-- C2 witness: a concrete run in which Starting fails with a healthy
rollback pass enters Stopping exactly twice and ends RolledBack or Failed. -/
theorem C2_single_rollback_reentry_witness :
    (deploy true ⟨true, true, true, false, true⟩
        ⟨true, true, true, true, true⟩).1.count Phase.stopping = 2
      ∧ rolledBackOrFailed (deploy true ⟨true, true, true, false, true⟩
          ⟨true, true, true, true, true⟩).2 = true :=
  C2_single_rollback_reentry.1 ⟨true, true, true, false, true⟩
    ⟨true, true, true, true, true⟩ rfl rfl rfl rfl

/-- C1 counterexample: with an artifact tag unknown to the registry but an
otherwise healthy world and no pre-existing container, the application_start
hook still issues docker run — the launch is attempted because the script
has no set -e — and only then exits 1, contradicting the claim that the
script exits nonzero before launching any container and never reaches the
Starting step. -/
theorem C1_counterexample :
    (⟨true, true, false, true, true, true, true, true⟩ : World).tagExists
        = false
      ∧ Ev.runCmd ∈
          (application_start ⟨true, true, false, true, true, true, true, true⟩
            ⟨false, false⟩).trace
      ∧ (application_start ⟨true, true, false, true, true, true, true, true⟩
          ⟨false, false⟩).exitCode = 1 := by
  decide

/-- C1 (amended): for every artifact reference unknown to the Artifact
Source, the set -e application_start variant exits nonzero at the pull,
before issuing any docker run; the application_start hook itself, lacking
set -e, still issues docker run after the failed pull and exits 1 only at
its final verification check, provided the initial cleanup left no old
container running. -/
theorem C1_unknown_artifact_fails (w : World) (c0 : Ctr)
    (htag : w.tagExists = false)
    (hold : c0.running = true → c0.present = true ∧ w.stopWorks = true) :
    (application_start_variant w c0).exitCode = 1
      ∧ Ev.runCmd ∉ (application_start_variant w c0).trace
      ∧ (application_start w c0).exitCode = 1
      ∧ Ev.runCmd ∈ (application_start w c0).trace := by
  revert htag hold
  revert w c0
  decide

/-- C1 witness: a concrete world with an unknown tag and no pre-existing
container, at which the variant stops before any run and the hook runs and
then fails. -/
theorem C1_unknown_artifact_fails_witness :
    (application_start_variant
          ⟨true, true, false, true, true, true, true, true⟩
          ⟨false, false⟩).exitCode = 1
      ∧ Ev.runCmd ∉
          (application_start_variant
            ⟨true, true, false, true, true, true, true, true⟩
            ⟨false, false⟩).trace
      ∧ (application_start ⟨true, true, false, true, true, true, true, true⟩
          ⟨false, false⟩).exitCode = 1
      ∧ Ev.runCmd ∈
          (application_start ⟨true, true, false, true, true, true, true, true⟩
            ⟨false, false⟩).trace :=
  C1_unknown_artifact_fails ⟨true, true, false, true, true, true, true, true⟩
    ⟨false, false⟩ rfl (by decide)

/-- C8: in the application_start variant of application_stop.sh, whenever
the execution reaches its duplicated block and the first docker run succeeds
in creating the container, the container slot is then occupied, the second
identical docker run fails with a name conflict, and under set -e the script
exits 1 with a trace that ends at the second run — its docker ps
verification step is never reached. -/
theorem C8_duplicate_run_conflict (w : World) (c0 : Ctr)
    (hsts : w.stsOk = true) (hrepo : w.repoExists = true)
    (hlogin : w.loginOk = true) (htag : w.tagExists = true)
    (hrun1 : (drun w c0 true).1 = true) :
    (application_start_variant w c0).exitCode = 1
      ∧ (application_start_variant w c0).trace
          = [Ev.stsCmd, Ev.ecrCheck, Ev.loginCmd, Ev.pullCmd, Ev.runCmd,
              Ev.pullCmd, Ev.runCmd]
      ∧ Ev.psCheck ∉ (application_start_variant w c0).trace
      ∧ ((drun w c0 true).2).present = true
      ∧ (drun w (drun w c0 true).2 true).1 = false := by
  revert hsts hrepo hlogin htag hrun1
  revert w c0
  decide

/-- C8 witness: in a fully healthy world with no pre-existing container the
variant fails at the second run, before its verification step. -/
theorem C8_duplicate_run_conflict_witness :
    (application_start_variant ⟨true, true, true, true, true, true, true, true⟩
        ⟨false, false⟩).exitCode = 1
      ∧ (application_start_variant
            ⟨true, true, true, true, true, true, true, true⟩
            ⟨false, false⟩).trace
          = [Ev.stsCmd, Ev.ecrCheck, Ev.loginCmd, Ev.pullCmd, Ev.runCmd,
              Ev.pullCmd, Ev.runCmd]
      ∧ Ev.psCheck ∉
          (application_start_variant
            ⟨true, true, true, true, true, true, true, true⟩
            ⟨false, false⟩).trace
      ∧ ((drun ⟨true, true, true, true, true, true, true, true⟩
            ⟨false, false⟩ true).2).present = true
      ∧ (drun ⟨true, true, true, true, true, true, true, true⟩
          (drun ⟨true, true, true, true, true, true, true, true⟩
            ⟨false, false⟩ true).2 true).1 = false :=
  C8_duplicate_run_conflict ⟨true, true, true, true, true, true, true, true⟩
    ⟨false, false⟩ rfl rfl rfl rfl rfl

/-- C5 counterexample: with a running container whose stop fails, the
application_stop script invokes docker stop exactly once (no retry), leaves
the container running, and still exits 0 — so the stop is never retried and
the phase never transitions to Failed, contradicting the claimed bounded
retry with failure after an exhausted budget. -/
theorem C5_counterexample :
    (application_stop ⟨true, true, true, true, false, true, true, true⟩
        ⟨true, true⟩).trace.count Ev.stopCmd = 1
      ∧ (application_stop ⟨true, true, true, true, false, true, true, true⟩
          ⟨true, true⟩).ctr.running = true
      ∧ (application_stop ⟨true, true, true, true, false, true, true, true⟩
          ⟨true, true⟩).exitCode = 0 := by
  decide

/-- C5 (amended): the Stopping phase performs exactly one docker stop
invocation per execution and exits 0 on every input; failures are swallowed
by the fallback echoes, so the phase neither retries the stop nor ever
transitions to the Failed outcome. -/
theorem C5_stop_single_attempt :
    ∀ (w : World) (c : Ctr),
      (application_stop w c).trace.count Ev.stopCmd = 1
        ∧ (application_stop w c).exitCode = 0 := by
  decide

/-- C6: whenever no container named ecommerce-app exists, both the
application_stop (Stopping) and before_install (BeforeInstall) scripts exit
0, and at coordinator level successful BeforeInstall and Stopping let the
attempt proceed into the Installing phase. -/
theorem C6_absent_container_is_success :
    (∀ (w : World) (c : Ctr), c.present = false →
      (application_stop w c).exitCode = 0
        ∧ (before_install w c).exitCode = 0)
    ∧ ∀ (pk : Bool) (o r : PhaseOutcomes), o.beforeInstallOk = true →
        o.stoppingOk = true → Phase.installing ∈ (deploy pk o r).1 :=
  ⟨by decide, by decide⟩

/-- C6 witness: with no container present in a concrete world, both scripts
exit 0, and a concrete attempt with successful early phases reaches
Installing. -/
theorem C6_absent_container_is_success_witness :
    ((application_stop ⟨true, true, true, true, true, true, true, true⟩
        ⟨false, false⟩).exitCode = 0
      ∧ (before_install ⟨true, true, true, true, true, true, true, true⟩
          ⟨false, false⟩).exitCode = 0)
    ∧ Phase.installing ∈
        (deploy true ⟨true, true, true, true, true⟩
          ⟨true, true, true, true, true⟩).1 :=
  ⟨C6_absent_container_is_success.1
      ⟨true, true, true, true, true, true, true, true⟩ ⟨false, false⟩ rfl,
    C6_absent_container_is_success.2 true ⟨true, true, true, true, true⟩
      ⟨true, true, true, true, true⟩ rfl rfl⟩

/-- C7 counterexample: on a concrete input the application_start hook issues
both docker stop and docker rm before its pull and run, so the Starting
phase re-executes the Stopping phase stop-and-remove actions, contradicting
the claim that it never does. -/
theorem C7_counterexample :
    Ev.stopCmd ∈
        (application_start ⟨true, true, true, true, true, true, true, true⟩
          ⟨true, true⟩).trace
      ∧ Ev.rmCmd ∈
          (application_start ⟨true, true, true, true, true, true, true, true⟩
            ⟨true, true⟩).trace := by
  decide

/-- C7 (amended): the coordinator always records the fixed phase sequence,
possibly cut short at a failing phase and possibly followed by at most one
rollback repetition of Stopping through Validating; but the Starting phase
script itself re-executes the stop-and-remove actions of the Stopping phase
on every execution. -/
theorem C7_phase_order :
    (∀ (pk : Bool) (o r : PhaseOutcomes), orderOk (deploy pk o r).1 = true)
    ∧ ∀ (w : World) (c : Ctr),
        Ev.stopCmd ∈ (application_start w c).trace
          ∧ Ev.rmCmd ∈ (application_start w c).trace :=
  ⟨by decide, by decide⟩

/-- C9: the application_stop script exits 0 for every outcome of the
underlying docker stop and docker rm calls; even when the container refuses
to stop and is still running afterwards, the Stopping phase reports
success. -/
theorem C9_stop_exit_always_zero :
    (∀ (w : World) (c : Ctr), (application_stop w c).exitCode = 0)
    ∧ ∀ (w : World) (c : Ctr), c.present = true → c.running = true →
        w.stopWorks = false → (application_stop w c).ctr.running = true
          ∧ (application_stop w c).exitCode = 0 :=
  ⟨by decide, by decide⟩

/-- C9 witness: a concrete world where the running container refuses to
stop still yields exit status 0 with the container left running. -/
theorem C9_stop_exit_always_zero_witness :
    (application_stop ⟨true, true, true, true, false, false, true, true⟩
        ⟨true, true⟩).ctr.running = true
      ∧ (application_stop ⟨true, true, true, true, false, false, true, true⟩
          ⟨true, true⟩).exitCode = 0 :=
  C9_stop_exit_always_zero.2 ⟨true, true, true, true, false, false, true, true⟩
    ⟨true, true⟩ rfl rfl rfl

/-- The empty response body contains none of the content markers. -/
theorem containsMarker_empty : containsMarker "" = false := by
  decide

/-- Characterization of validate_service success: the exit status is 0
exactly when the container is listed as running, its inspect status is
running, the HTTP code is 200, the body carries a content marker, and both
the timing curl and the final curl succeed. -/
theorem validate_exit_zero_iff (h : HealthWorld) :
    (validate_service h).2 = 0 ↔
      h.psRunning = true ∧ h.status = runningStatus ∧ h.httpCode = okCode
        ∧ containsMarker h.body = true ∧ h.perfCurlOk = true
        ∧ h.finalCurlOk = true := by
  unfold validate_service
  cases hps : h.psRunning <;> cases hpf : h.perfCurlOk <;>
    cases hfc : h.finalCurlOk <;> cases hcm : containsMarker h.body <;>
      by_cases hst : h.status = runningStatus <;>
        by_cases hco : h.httpCode = okCode <;>
          simp [hps, hpf, hfc, hcm, hst, hco, beq_iff_eq]

/-- C3: validate_service reports success only when all three health signals
hold — inspect status running, HTTP code 200, and a response body that
carries a content marker and hence is non-empty; in every run where the
process is running and HTTP gives 200 but the body is empty, the script
exits 1, and at coordinator level an attempt can only end Succeeded when
Validating succeeded. -/
theorem C3_three_health_signals :
    (∀ h : HealthWorld, (validate_service h).2 = 0 →
        h.status = runningStatus ∧ h.httpCode = okCode
          ∧ containsMarker h.body = true ∧ h.body ≠ "")
    ∧ (∀ h : HealthWorld, h.psRunning = true → h.status = runningStatus →
        h.httpCode = okCode → h.body = "" → (validate_service h).2 = 1)
    ∧ ∀ (pk : Bool) (o r : PhaseOutcomes),
        (deploy pk o r).2 = Terminal.succeeded → o.validatingOk = true := by
  refine ⟨?_, ?_, by decide⟩
  · intro h h0
    obtain ⟨_, hst, hco, hcm, _, _⟩ := (validate_exit_zero_iff h).1 h0
    refine ⟨hst, hco, hcm, ?_⟩
    intro hb
    rw [hb, containsMarker_empty] at hcm
    exact Bool.false_ne_true hcm
  · intro h hps hst hco hbo
    simp [validate_service, hps, hst, hco, hbo, containsMarker_empty,
      beq_iff_eq]

/-- C3 witness: a run with the container running and HTTP 200 but an empty
body exits 1. -/
theorem C3_three_health_signals_witness :
    (validate_service
        ⟨true, runningStatus, okCode, "", 0, true, "0.02", true⟩).2 = 1 :=
  C3_three_health_signals.2.1
    ⟨true, runningStatus, okCode, "", 0, true, "0.02", true⟩ rfl rfl rfl rfl

/-- C4 counterexample: a run whose timing probe reports 99.999 seconds —
beyond the tens-of-seconds ceiling of the spec — still exits 0, because the
script only prints the measured response time; so the claim that Validating
succeeds only under a latency ceiling is false. -/
theorem C4_counterexample :
    (validate_service
        ⟨true, runningStatus, okCode, markerEcommerce, 0, true, "99.999",
          true⟩).2 = 0 := by
  decide

/-- C4 (amended): validate_service measures the probe latency and prints
it, but its result is identical for every reported latency value; success
never depends on the measured response time, only on the timing curl
invocation itself succeeding. -/
theorem C4_latency_never_checked :
    ∀ (h : HealthWorld) (t1 t2 : String),
      validate_service { h with responseTime := t1 }
        = validate_service { h with responseTime := t2 } := by
  intro h t1 t2
  rfl

/-- C10: the log error scan of validate_service never affects the phase
outcome — the commands issued and the exit status are identical for every
error count found in the container logs. -/
theorem C10_log_scan_no_effect :
    ∀ (h : HealthWorld) (n : Nat),
      validate_service { h with errorCount := n } = validate_service h := by
  intro h n
  rfl

end ECommerceDeploy
